import Mathlib

/-!
Shallow embedding of the geofirestore library (src/dist/utils.js,
src/dist/query.js, src/dist/callbackRegistration.js) and verification of the
specification claims about it.

Geohash strings are modelled as `List Char`; JS string comparison (`<=` on
code units) is modelled by `lexLe`.  JS numbers that only flow through
comparisons and bookkeeping are modelled as `ℚ`; quantities that flow through
transcendental functions (the haversine distance) are modelled as `ℝ`.
-/

namespace Geofirestore

/-! ## GeohashCodec (src/dist/utils.js) -/

/-- Characters used in location geohashes (`g_BASE32` in utils.js). -/
def base32List : List Char :=
  ['0', '1', '2', '3', '4', '5', '6', '7', '8', '9',
   'b', 'c', 'd', 'e', 'f', 'g', 'h', 'j', 'k', 'm',
   'n', 'p', 'q', 'r', 's', 't', 'u', 'v', 'w', 'x', 'y', 'z']

/-- `g_BASE32.indexOf(c)` for characters of a validated geohash (the `-1`
result for absent characters is never reached on validated input; Lean's
`List.indexOf` returns the list length there instead). -/
def base32Index (c : Char) : ℕ := base32List.indexOf c

/-- `g_BASE32[n]`: the `n`-th base-32 character; only evaluated at `n ≤ 31`
in the source, the default is irrelevant. -/
def base32Char (n : ℕ) : Char := base32List.getD n '0'

/-- `validateGeohash` (utils.js): a geohash is a nonempty string over the
32-character alphabet.  The source throws on violation; we model the check as
a Bool used as a precondition. -/
def validGeohash (g : List Char) : Bool :=
  !g.isEmpty && g.all (fun c => c ∈ base32List)

/-- JS string comparison `s <= t` (lexicographic on code units). -/
def lexLe : List Char → List Char → Bool
  | [], _ => true
  | _ :: _, [] => false
  | a :: as, b :: bs => if a < b then true else if a = b then lexLe as bs else false

/-- `geohashQuery(geohash, bits)` (utils.js lines 359-380): the `[start, end]`
range of geohashes sharing the top `bits` bits with `geohash`.  JS
`charAt` past the end of a string yields the empty string and
`indexOf('') = 0`, hence the `0` default for the last character of an empty
truncation.  `>>`/`<<` on the small non-negative `lastValue` are division and
multiplication by powers of two. -/
def geohashQuery (geohash : List Char) (bits : ℕ) : List Char × List Char :=
  let precision := (bits + 4) / 5
  if geohash.length < precision then (geohash, geohash ++ ['~'])
  else
    let gh := geohash.take precision
    let base := gh.dropLast
    let lastValue := match gh.getLast? with
      | some c => base32Index c
      | none => 0
    let significantBits := bits - base.length * 5
    let unusedBits := 5 - significantBits
    let startValue := lastValue / 2 ^ unusedBits * 2 ^ unusedBits
    let endValue := startValue + 2 ^ unusedBits
    if endValue > 31 then (base ++ [base32Char startValue], base ++ ['~'])
    else (base ++ [base32Char startValue], base ++ [base32Char endValue])

/-! ## Criteria validation (src/dist/utils.js lines 61-157)

Query criteria are JS objects with optional `center` / `radius` fields.  The
purely dynamic error cases (non-object argument, non-array location,
non-numeric radius, extraneous attributes) are excluded by the typed
embedding; the remaining, value-level checks are modelled faithfully. -/

/-- A query criteria object: optional center and optional radius. -/
structure Criteria where
  center : Option (ℚ × ℚ)
  radius : Option ℚ

/-- `validateLocation` (utils.js lines 61-89), value-level part: latitude in
[-90, 90] and longitude in [-180, 180]; throws (models as `.error`) the
corresponding message otherwise. -/
def validateLocation (loc : ℚ × ℚ) : Except String Unit :=
  if loc.1 < -90 ∨ loc.1 > 90 then
    .error "latitude must be within the range -90 to 90"
  else if loc.2 < -180 ∨ loc.2 > 180 then
    .error "longitude must be within the range -180 to 180"
  else .ok ()

/-- `validateCriteria(newQueryCriteria, requireCenterAndRadius)` (utils.js
lines 124-157): requires at least one of center/radius (both when
`requireCenterAndRadius`), then validates the present fields; a present
radius must be a number `≥ 0`. -/
def validateCriteria (c : Criteria) (requireCenterAndRadius : Bool) : Except String Unit :=
  if c.center.isNone ∧ c.radius.isNone then
    .error "radius and or center must be specified"
  else if requireCenterAndRadius ∧ (c.center.isNone ∨ c.radius.isNone) then
    .error "query criteria for a new query must contain both a center and a radius"
  else
    match (match c.center with
           | some loc => validateLocation loc
           | none => .ok ()) with
    | .error e => .error e
    | .ok _ =>
      match c.radius with
      | some r => if r < 0 then .error "radius must be greater than or equal to 0" else .ok ()
      | none => .ok ()

/-! ## Haversine distance (`GeoFirestore.distance`, static method in the
GeoFirestore class) over the reals. -/

/-- `degreesToRadians` (utils.js lines 165-171). -/
noncomputable def degreesToRadians (degrees : ℝ) : ℝ := degrees * Real.pi / 180

/-- JS `Math.atan2(y, x)`. -/
noncomputable def atan2 (y x : ℝ) : ℝ :=
  if 0 < x then Real.arctan (y / x)
  else if x < 0 then
    (if 0 ≤ y then Real.arctan (y / x) + Real.pi else Real.arctan (y / x) - Real.pi)
  else (if 0 < y then Real.pi / 2 else if y < 0 then -(Real.pi / 2) else 0)

/-- `GeoFirestore.distance(location1, location2)`: haversine distance in
kilometers between two `[latitude, longitude]` pairs. -/
noncomputable def distance (location1 location2 : ℝ × ℝ) : ℝ :=
  let radius : ℝ := 6371
  let latDelta := degreesToRadians (location2.1 - location1.1)
  let lonDelta := degreesToRadians (location2.2 - location1.2)
  let a := Real.sin (latDelta / 2) * Real.sin (latDelta / 2) +
    Real.cos (degreesToRadians location1.1) * Real.cos (degreesToRadians location2.1) *
      (Real.sin (lonDelta / 2) * Real.sin (lonDelta / 2))
  let c := 2 * atan2 (Real.sqrt a) (Real.sqrt (1 - a))
  radius * c

/-! ## `encodeGeohash` (utils.js lines 182-235) over the reals.

The loop runs one bisection step per bit, appending one base-32 character per
five accumulated bits; precision `p` therefore takes exactly `5 * p` steps. -/

/-- Mutable loop state of `encodeGeohash`. -/
structure EncodeState where
  latMin : ℝ
  latMax : ℝ
  lonMin : ℝ
  lonMax : ℝ
  hash : List Char
  hashVal : ℕ
  bits : ℕ
  even : Bool

/-- One `while` iteration of `encodeGeohash`, iterated `fuel` times
(`fuel = 5 * precision` makes the `hash.length < precision` guard exact). -/
noncomputable def encodeGeohashAux (location : ℝ × ℝ) : ℕ → EncodeState → EncodeState
  | 0, st => st
  | fuel + 1, st =>
    let val := if st.even then location.2 else location.1
    let lo := if st.even then st.lonMin else st.latMin
    let hi := if st.even then st.lonMax else st.latMax
    let mid := (lo + hi) / 2
    let bit : ℕ := if mid < val then 1 else 0
    let lo' := if mid < val then mid else lo
    let hi' := if mid < val then hi else mid
    let st' : EncodeState :=
      if st.even then
        { st with lonMin := lo', lonMax := hi', hashVal := 2 * st.hashVal + bit,
                  even := false }
      else
        { st with latMin := lo', latMax := hi', hashVal := 2 * st.hashVal + bit,
                  even := true }
    if st.bits < 4 then
      encodeGeohashAux location fuel { st' with bits := st.bits + 1 }
    else
      encodeGeohashAux location fuel
        { st' with bits := 0, hash := st'.hash ++ [base32Char st'.hashVal], hashVal := 0 }

/-- `encodeGeohash(location, precision)` (utils.js): base-32 geohash of a
`[latitude, longitude]` pair. -/
noncomputable def encodeGeohash (location : ℝ × ℝ) (precision : ℕ) : List Char :=
  (encodeGeohashAux location (5 * precision)
    { latMin := -90, latMax := 90, lonMin := -180, lonMax := 180,
      hash := [], hashVal := 0, bits := 0, even := true }).hash

/-! ## GeoFirestoreQuery (src/dist/query.js)

The query object is modelled as a state record; each method becomes a state
transformer.  Client callbacks are opaque and referenced by numeric ids;
"the query fires event e" is recorded in a `FiredEvent` trace (one entry per
`_fireCallbacksForKey` / ready-callback dispatch), and "callback c is
invoked" is the pairing of a fired event with the callbacks registered for
its type at dispatch time (`invocationsOf`).  Timers (`setInterval` /
`setTimeout`) and Firestore subscriptions are recorded as `Effect`s plus the
boolean scheduling flags kept by the source itself. -/

/-- The four event types of `query.on`. -/
inductive EventType where
  | ready
  | key_entered
  | key_exited
  | key_moved
deriving DecidableEq

/-- Payload of one `_fireCallbacksForKey` / ready dispatch, as delivered to
the callbacks (query.js lines 292-310): a null location nulls out distance
and document as well. -/
structure FiredEvent where
  type : EventType
  key : String
  location : Option (ℝ × ℝ)
  distanceFromCenter : Option ℝ
  document : Option String

/-- Shape the payload exactly as `_fireCallbacksForKey` does. -/
def mkFiredEvent (t : EventType) (key : String) (location : Option (ℝ × ℝ))
    (dist : Option ℝ) (document : Option String) : FiredEvent :=
  match location with
  | none => ⟨t, key, none, none, none⟩
  | some l => ⟨t, key, some l, dist, document⟩

/-- The `_callbacks` record: one callback list per event type. -/
structure Callbacks where
  ready : List ℕ
  key_entered : List ℕ
  key_exited : List ℕ
  key_moved : List ℕ

/-- Fresh empty `_callbacks` record (constructor and `cancel()`). -/
def emptyCallbacks : Callbacks := ⟨[], [], [], []⟩

/-- The callback list stored for an event type. -/
def callbacksFor (c : Callbacks) : EventType → List ℕ
  | .ready => c.ready
  | .key_entered => c.key_entered
  | .key_exited => c.key_exited
  | .key_moved => c.key_moved

/-- Entry of `_locationsTracked` (query.js lines 482-488). -/
structure LocationInfo where
  location : ℝ × ℝ
  document : Option String
  distanceFromCenter : ℝ
  isInQuery : Bool
  geohash : String

/-- Entry of `_currentGeohashesQueried`: active flag plus the two Firestore
unsubscribe handles (abstract ids). -/
structure GeohashQueryState where
  active : Bool
  childCallback : ℕ
  valueCallback : ℕ

/-- Externally visible scheduled work / store subscriptions. -/
inductive Effect where
  | scheduleInterval (ms : ℕ)
  | scheduleTimeout (ms : ℕ)
  | subscribeRange (queryStr : String)
deriving DecidableEq

/-- State of one `GeoFirestoreQuery` instance.  `cleanupIntervalActive`
tracks whether the `setInterval` handle of the periodic cleanup is live;
`cleanupTimeoutPending` tracks `_cleanUpCurrentGeohashesQueriedTimeout
!== null` (a scheduled one-shot cleanup). -/
structure QueryState where
  cancelled : Bool
  callbacks : Callbacks
  currentGeohashesQueried : List (String × GeohashQueryState)
  locationsTracked : List (String × LocationInfo)
  valueEventFired : Bool
  geohashCleanupScheduled : Bool
  cleanupTimeoutPending : Bool
  cleanupIntervalActive : Bool
  outstandingGeohashReadyEvents : List String
  center : ℝ × ℝ
  radius : ℝ

/-- JS object lookup `dict[key]` for the string-keyed dictionaries. -/
def assocGet {α : Type} : List (String × α) → String → Option α
  | [], _ => none
  | (k, v) :: rest, key => if k = key then some v else assocGet rest key

/-- JS object assignment `dict[key] = value`: overwrite in place if present,
append otherwise (JS objects preserve insertion order of string keys). -/
def assocSet {α : Type} (l : List (String × α)) (key : String) (v : α) :
    List (String × α) :=
  if (assocGet l key).isSome then
    l.map (fun p => if p.1 = key then (key, v) else p)
  else l ++ [(key, v)]

/-- JS `delete dict[key]`. -/
def assocRemove {α : Type} (l : List (String × α)) (key : String) :
    List (String × α) :=
  l.filter (fun p => !(p.1 = key))

/-- The callback invocations produced by dispatching one fired event: the
event paired with every callback registered for its type at dispatch time
(`_fireCallbacksForKey` / `_fireReadyEventCallbacks`). -/
def invocationsOf (s : QueryState) (e : FiredEvent) : List (ℕ × FiredEvent) :=
  (callbacksFor s.callbacks e.type).map (fun cb => (cb, e))

/-- JS `str.split(':')` on the underlying character list. -/
def splitOnColon : List Char → List (List Char)
  | [] => [[]]
  | c :: rest =>
    if c = ':' then [] :: splitOnColon rest
    else
      match splitOnColon rest with
      | [] => [[c]]
      | first :: others => (c :: first) :: others

/-- `_stringToQuery(str)` (query.js lines 453-459): split on `:`.  The source
throws unless the split has exactly two parts; keys of
`_currentGeohashesQueried` are always produced by `_queryToString` and well
formed, so a `none` result is never reached there. -/
def stringToQuery (str : String) : Option (String × String) :=
  match (splitOnColon str.data).map String.mk with
  | [a, b] => some (a, b)
  | _ => none

/-- `_queryToString(query)` (query.js lines 427-432). -/
def queryToString (q : String × String) : String := q.1 ++ ":" ++ q.2

/-- JS string comparison `s <= t` lifted to `String`. -/
def strLe (s t : String) : Bool := lexLe s.data t.data

/-- `_geohashInSomeQuery(geohash)` (query.js lines 317-329): whether the
geohash lies in the `[start, end]` interval of some currently queried
range. -/
def geohashInSomeQuery (geohash : String) (queryStrs : List String) : Bool :=
  queryStrs.any (fun qs =>
    match stringToQuery qs with
    | some q => strLe q.1 geohash && strLe geohash q.2
    | none => false)

/-- `cancel()` (query.js lines 57-74): set the cancelled flag, drop all
callbacks, cancel and delete every geohash query, drop all tracked
locations, and `clearInterval` the periodic cleanup.  Note that the one-shot
cleanup timeout (`_cleanUpCurrentGeohashesQueriedTimeout`) is NOT cleared
here. -/
def cancelQuery (s : QueryState) : QueryState :=
  { s with cancelled := true,
           callbacks := emptyCallbacks,
           currentGeohashesQueried := [],
           locationsTracked := [],
           cleanupIntervalActive := false }

/-- `_updateLocation(key, location, document)` (query.js lines 471-499).
Returns the new state and the trace of fired events.  The source first
validates the location (throw modelled as `.error`); the `!==` comparisons
on numbers are decidable real comparisons here. -/
noncomputable def updateLocation (s : QueryState) (key : String) (location : ℝ × ℝ)
    (document : Option String) : Except String (QueryState × List FiredEvent) :=
  if location.1 < -90 ∨ location.1 > 90 then
    .error "latitude must be within the range -90 to 90"
  else if location.2 < -180 ∨ location.2 > 180 then
    .error "longitude must be within the range -180 to 180"
  else
    let wasInQuery : Bool :=
      match assocGet s.locationsTracked key with
      | some info => info.isInQuery
      | none => false
    let oldLocation : Option (ℝ × ℝ) :=
      match assocGet s.locationsTracked key with
      | some info => some info.location
      | none => none
    let distanceFromCenter := distance location s.center
    let isInQuery : Bool := decide (distanceFromCenter ≤ s.radius)
    let newInfo : LocationInfo :=
      { location := location, document := document,
        distanceFromCenter := distanceFromCenter, isInQuery := isInQuery,
        geohash := String.mk (encodeGeohash location 10) }
    let tracked' := assocSet s.locationsTracked key newInfo
    let s' : QueryState := { s with locationsTracked := tracked' }
    let movedCond : Bool := isInQuery &&
      (match oldLocation with
       | some old => !(decide (location.1 = old.1)) || !(decide (location.2 = old.2))
       | none => false)
    let events : List FiredEvent :=
      if isInQuery && !wasInQuery then
        [mkFiredEvent .key_entered key (some location) (some distanceFromCenter) document]
      else if movedCond then
        [mkFiredEvent .key_moved key (some location) (some distanceFromCenter) document]
      else if !isInQuery && wasInQuery then
        [mkFiredEvent .key_exited key (some location) (some distanceFromCenter) document]
      else []
    .ok (s', events)

/-- `_removeLocation(key, currentLocation)` (query.js lines 439-446). -/
noncomputable def removeLocation (s : QueryState) (key : String)
    (currentLocation : Option (ℝ × ℝ)) : QueryState × List FiredEvent :=
  let locationDict := assocGet s.locationsTracked key
  let s' := { s with locationsTracked := assocRemove s.locationsTracked key }
  match locationDict with
  | some info =>
    if info.isInQuery then
      (s', [mkFiredEvent .key_exited key currentLocation
              (currentLocation.map (fun l => distance l s.center)) none])
    else (s', [])
  | none => (s', [])

/-- `_geohashQueryReadyCallback(queryStr)` (query.js lines 334-344); called
with no argument (`none`) from the no-new-geohashes path, where
`indexOf(undefined) = -1` removes nothing. -/
def geohashQueryReadyCallback (s : QueryState) (queryStr : Option String) :
    QueryState × List FiredEvent :=
  let outstanding :=
    match queryStr with
    | some q => s.outstandingGeohashReadyEvents.erase q
    | none => s.outstandingGeohashReadyEvents
  let fired := outstanding.isEmpty
  ({ s with outstandingGeohashReadyEvents := outstanding, valueEventFired := fired },
   if fired then [⟨.ready, "", none, none, none⟩] else [])

/-- The per-key loop of `updateCriteria` (query.js lines 166-190): recompute
distance and in-query status for every tracked key in registry order, firing
`key_exited` / `key_entered` transitions; `break` as soon as the query has
been cancelled. -/
noncomputable def updateCriteriaLoop (s : QueryState) :
    List String → QueryState × List FiredEvent
  | [] => (s, [])
  | key :: rest =>
    if s.cancelled = true then (s, [])
    else
      match assocGet s.locationsTracked key with
      | none =>
        -- unreachable: the keys are `Object.keys(this._locationsTracked)`
        updateCriteriaLoop s rest
      | some locationDict =>
        let wasAlreadyInQuery := locationDict.isInQuery
        let d := distance locationDict.location s.center
        let isIn : Bool := decide (d ≤ s.radius)
        let updatedDict : LocationInfo :=
          { locationDict with distanceFromCenter := d, isInQuery := isIn }
        let tracked' := assocSet s.locationsTracked key updatedDict
        let s' : QueryState := { s with locationsTracked := tracked' }
        let events : List FiredEvent :=
          if wasAlreadyInQuery && !isIn then
            [mkFiredEvent .key_exited key (some locationDict.location) (some d)
              locationDict.document]
          else if !wasAlreadyInQuery && isIn then
            [mkFiredEvent .key_entered key (some locationDict.location) (some d)
              locationDict.document]
          else []
        let (s'', events') := updateCriteriaLoop s' rest
        (s'', events ++ events')

/-- Keep the elements not seen before (accumulator `seen`). -/
def dedupFirstAux (seen : List String) : List String → List String
  | [] => []
  | a :: rest =>
    if a ∈ seen then dedupFirstAux seen rest
    else a :: dedupFirstAux (seen ++ [a]) rest

/-- JS `list.filter((x, i) => list.indexOf(x) === i)`: keep the first
occurrence of every element, preserving order. -/
def dedupFirst (l : List String) : List String := dedupFirstAux [] l

/-- The reconciliation loop of `_listenForNewGeohashes` (query.js lines
358-368): ranges already queried are re-marked active and spliced out of the
to-query list; ranges no longer desired are marked inactive. -/
def markQueries : List (String × GeohashQueryState) → List String →
    List (String × GeohashQueryState) × List String
  | [], toQuery => ([], toQuery)
  | (k, st) :: rest, toQuery =>
    if k ∈ toQuery then
      let (rest', tq) := markQueries rest (toQuery.erase k)
      ((k, { st with active := true }) :: rest', tq)
    else
      let (rest', tq) := markQueries rest toQuery
      ((k, { st with active := false }) :: rest', tq)

/-- `_listenForNewGeohashes()` (query.js lines 349-420), parametrised by the
already-stringified coverage list `geohashesToQuery₀ =
geohashQueries(center, radius * 1000).map(queryToString)` (whose numeric
evaluation involves transcendental floating point and is kept as an input).
Returns the new state, the scheduled/subscription effects, and fired events
(the immediate `ready` when no new geohash needs querying).  The
`scheduleTimeout 10` effect records
`setTimeout(this._cleanUpCurrentGeohashesQueried, 10)` at line 373 — note
that the method is passed to `setTimeout` WITHOUT binding `this`, so the
fired timer does not actually run the cleanup against the query: see
`fireOneShotCleanup`. -/
def listenForNewGeohashes (s : QueryState) (geohashesToQuery₀ : List String) :
    QueryState × List Effect × List FiredEvent :=
  let geohashesToQuery := dedupFirst geohashesToQuery₀
  let (marked, toQuery) := markQueries s.currentGeohashesQueried geohashesToQuery
  let s₁ := { s with currentGeohashesQueried := marked }
  let scheduleNow : Bool :=
    decide (s₁.geohashCleanupScheduled = false) && decide (marked.length > 25)
  let s₂ :=
    if scheduleNow then
      { s₁ with geohashCleanupScheduled := true, cleanupTimeoutPending := true }
    else s₁
  let schedEffects : List Effect := if scheduleNow then [.scheduleTimeout 10] else []
  let s₃ := { s₂ with outstandingGeohashReadyEvents := toQuery }
  let newEntries := toQuery.map (fun q =>
    (q, ({ active := true, childCallback := 0, valueCallback := 0 } : GeohashQueryState)))
  let queried' := s₃.currentGeohashesQueried ++ newEntries
  let s₄ := { s₃ with currentGeohashesQueried := queried' }
  let subEffects : List Effect := toQuery.map .subscribeRange
  if toQuery.isEmpty then
    let (s₅, events) := geohashQueryReadyCallback s₄ none
    (s₅, schedEffects ++ subEffects, events)
  else (s₄, schedEffects ++ subEffects, [])

/-- The error message of the cleanup internal-state check. -/
def internalStateError : String :=
  "Internal State error, trying to remove location that is still in query"

/-- The tracked-locations sweep of `_cleanUpCurrentGeohashesQueried`
(query.js lines 266-274): every key whose geohash is no longer covered by a
currently queried range is deleted, unless it is still flagged in-query, in
which case a fatal internal-state error is thrown (aborting the sweep). -/
def cleanUpLocations (ranges : List String) :
    List (String × LocationInfo) → Except String (List (String × LocationInfo))
  | [] => .ok []
  | (k, info) :: rest =>
    if geohashInSomeQuery info.geohash ranges then
      match cleanUpLocations ranges rest with
      | .ok rest' => .ok ((k, info) :: rest')
      | .error e => .error e
    else if info.isInQuery then .error internalStateError
    else cleanUpLocations ranges rest

/-- `_cleanUpCurrentGeohashesQueried()` (query.js lines 253-282): cancel and
delete every inactive geohash query, then sweep the tracked locations, then
clear the scheduling flag and any pending one-shot timeout.  Returns the new
state and the keys of the cancelled range subscriptions; the internal-state
throw aborts with `.error`.  This models the method invoked with `this`
correctly bound to the query instance — which is how the periodic interval
closure (query.js lines 38-42, via `_this`) calls it.  The one-shot
`setTimeout` path passes the method unbound and never reaches this body:
see `fireOneShotCleanup`. -/
def cleanUpCurrentGeohashesQueried (s : QueryState) :
    Except String (QueryState × List String) :=
  let removed := s.currentGeohashesQueried.filter (fun p => p.2.active = false)
  let remaining := s.currentGeohashesQueried.filter (fun p => p.2.active = true)
  match cleanUpLocations (remaining.map Prod.fst) s.locationsTracked with
  | .error e => .error e
  | .ok tracked' =>
    .ok ({ s with currentGeohashesQueried := remaining,
                  locationsTracked := tracked',
                  geohashCleanupScheduled := false,
                  cleanupTimeoutPending := false },
         removed.map Prod.fst)

/-- The TypeError raised when the unbound one-shot cleanup callback fires
(the exact message text is environment dependent; in Node,
`Object.keys(undefined)` raises this one). -/
def oneShotTypeError : String := "TypeError: Cannot convert undefined or null to object"

/-- The one-shot cleanup as actually scheduled by the source: query.js line
373 passes `this._cleanUpCurrentGeohashesQueried` to `setTimeout` WITHOUT
binding `this`.  When the timer fires, `this` is the timer context (Node)
or `undefined` (strict-mode browsers) — never the query instance — so the
method's first statement `Object.keys(this._currentGeohashesQueried)`
throws a TypeError before any subscription is cancelled, any tracked key
deleted, or any flag reset: the query state is untouched. -/
def fireOneShotCleanup (_ : QueryState) : Except String (QueryState × List String) :=
  .error oneShotTypeError

/-- Body of one tick of the periodic cleanup interval (query.js lines
38-42).  Unlike the one-shot, the interval closure IS correctly bound (it
closes over `_this`), but it only sweeps while no one-shot cleanup is
scheduled. -/
def cleanupIntervalTick (s : QueryState) : Except String (QueryState × List String) :=
  if s.geohashCleanupScheduled = false then cleanUpCurrentGeohashesQueried s
  else .ok (s, [])

/-- `updateCriteria(newQueryCriteria)` (query.js lines 159-195), parametrised
like `listenForNewGeohashes` by the stringified new coverage.  JS `x || y`
keeps the old value when the new one is falsy: a provided radius of `0` is
falsy and is silently ignored. -/
noncomputable def updateCriteria (s : QueryState) (c : Criteria)
    (newCoverage : List String) :
    Except String (QueryState × List FiredEvent × List Effect) :=
  match validateCriteria c false with
  | .error e => .error e
  | .ok _ =>
    let center' : ℝ × ℝ :=
      match c.center with
      | some l => ((l.1 : ℝ), (l.2 : ℝ))  -- arrays are truthy in JS
      | none => s.center
    let radius' : ℝ :=
      match c.radius with
      | some r => if r = 0 then s.radius else (r : ℝ)  -- JS: 0 || old = old
      | none => s.radius
    let s₁ := { s with center := center', radius := radius' }
    let (s₂, events) := updateCriteriaLoop s₁ (s₁.locationsTracked.map Prod.fst)
    let s₃ := { s₂ with valueEventFired := false }
    let (s₄, effects, events') := listenForNewGeohashes s₃ newCoverage
    .ok (s₄, events ++ events', effects)

/-- The `GeoFirestoreQuery` constructor (query.js lines 14-49), parametrised
by the stringified coverage used by `_listenForNewGeohashes`.  The periodic
cleanup interval is scheduled (line 38) BEFORE the criteria are validated
(line 44); a validation throw therefore leaves the interval scheduled. -/
def constructQuery (c : Criteria) (coverage : List String) :
    List Effect × Except String QueryState :=
  match validateCriteria c true with
  | .error e => ([.scheduleInterval 10000], .error e)
  | .ok _ =>
    match c.center, c.radius with
    | some ctr, some r =>
      let s₀ : QueryState :=
        { cancelled := false, callbacks := emptyCallbacks,
          currentGeohashesQueried := [], locationsTracked := [],
          valueEventFired := false, geohashCleanupScheduled := false,
          cleanupTimeoutPending := false, cleanupIntervalActive := true,
          outstandingGeohashReadyEvents := [],
          center := ((ctr.1 : ℝ), (ctr.2 : ℝ)), radius := (r : ℝ) }
      let (s₁, effects, _) := listenForNewGeohashes s₀ coverage
      (Effect.scheduleInterval 10000 :: effects, .ok s₁)
    | _, _ =>
      -- unreachable: `validateCriteria _ true` succeeds only with both fields
      ([.scheduleInterval 10000], .error "unreachable")

/-! ## GeoCallbackRegistration (src/dist/callbackRegistration.js) and the
cancellation closure built by `query.on` (query.js lines 139-143). -/

/-- JS `list.indexOf(x)`: first index, or `-1`. -/
def jsIndexOf (l : List ℕ) (x : ℕ) : Int :=
  match l.indexOf? x with
  | some i => (i : Int)
  | none => -1

/-- JS `list.splice(start, 1)`: a negative start counts from the end
(clamped at 0), and the element at the resulting position, if any, is
removed. -/
def spliceRemoveOne {α : Type} (l : List α) (start : Int) : List α :=
  let actual : ℕ :=
    if start < 0 then (l.length + start).toNat else min start.toNat l.length
  l.take actual ++ l.drop (actual + 1)

/-- The closure registered by `query.on` (query.js lines 140-142):
`callbacks.splice(callbacks.indexOf(callback), 1)`.  When the callback is no
longer present, `indexOf` is `-1` and `splice(-1, 1)` removes the LAST
element of the list instead. -/
def onCancelClosure (callbacks : List ℕ) (callback : ℕ) : List ℕ :=
  spliceRemoveOne callbacks (jsIndexOf callbacks callback)

/-- `GeoCallbackRegistration.cancel()` (callbackRegistration.js lines
23-28): run the stored closure once; afterwards the stored closure is
`undefined` and further calls are no-ops.  `alreadyCancelled` models
`_cancelCallback === undefined`. -/
def registrationCancel (alreadyCancelled : Bool) (callbacks : List ℕ)
    (callback : ℕ) : Bool × List ℕ :=
  if alreadyCancelled then (true, callbacks)
  else (true, onCancelClosure callbacks callback)

/-! ## Result projections and concrete scenario states used by the claims -/

/-- Events fired by an `updateLocation` result (none when it threw). -/
noncomputable def eventsOfResult (r : Except String (QueryState × List FiredEvent)) :
    List FiredEvent :=
  match r with
  | .ok (_, events) => events
  | .error _ => []

/-- Resulting state of an `updateLocation` result, with a fallback for the
throwing case. -/
noncomputable def stateOfResult (r : Except String (QueryState × List FiredEvent))
    (fallback : QueryState) : QueryState :=
  match r with
  | .ok (s, _) => s
  | .error _ => fallback

/-- Callback lists after an `updateLocation` result (unchanged on throw). -/
noncomputable def callbacksAfterUpdate (s : QueryState) (key : String)
    (location : ℝ × ℝ) (document : Option String) : Callbacks :=
  match updateLocation s key location document with
  | .ok (s', _) => s'.callbacks
  | .error _ => s.callbacks

/-- Stored radius of an `updateCriteria` result (none when it threw). -/
noncomputable def radiusOfResult
    (r : Except String (QueryState × List FiredEvent × List Effect)) : Option ℝ :=
  match r with
  | .ok (s, _, _) => some s.radius
  | .error _ => none

/-- A freshly constructed query with center `(0, 0)` and stored radius
`1000` (the concrete scenario of the specification; the source stores the
radius in kilometers). -/
noncomputable def scenarioState : QueryState :=
  { cancelled := false, callbacks := emptyCallbacks,
    currentGeohashesQueried := [], locationsTracked := [],
    valueEventFired := false, geohashCleanupScheduled := false,
    cleanupTimeoutPending := false, cleanupIntervalActive := true,
    outstandingGeohashReadyEvents := [], center := (0, 0), radius := 1000 }

/-- A query state with stored radius `5` and no tracked locations, for the
radius-update claim. -/
noncomputable def radiusFiveState : QueryState :=
  { scenarioState with radius := 5 }

/-- Thirty distinct well-formed geohash-query strings. -/
def thirtyRangeKeys : List String :=
  (List.range 30).map (fun i => String.mk ['q', base32Char i, ':', 'q', base32Char i, '~'])

/-- The first five of `thirtyRangeKeys`: the ranges that remain desired
after the query shrinks. -/
def fiveDesired : List String := thirtyRangeKeys.take 5

/-- A query state currently subscribed to the thirty ranges, with no
cleanup scheduled and no tracked locations. -/
noncomputable def thirtyRangeState : QueryState :=
  { scenarioState with
      currentGeohashesQueried := thirtyRangeKeys.map (fun q =>
        (q, ({ active := true, childCallback := 0, valueCallback := 0 } : GeohashQueryState))) }

end Geofirestore

namespace Geofirestore

/-! ## Helper lemmas: lexicographic order and the base-32 alphabet -/

theorem lexLe_append_same (p xs ys : List Char) :
    lexLe (p ++ xs) (p ++ ys) = lexLe xs ys := by
  induction p with
  | nil => rfl
  | cons a p ih => simp [lexLe, lt_irrefl, ih]

theorem lexLe_single_cons {a b : Char} (l : List Char) (h : a ≤ b) :
    lexLe [a] (b :: l) = true := by
  rcases lt_or_eq_of_le h with h' | h'
  · simp [lexLe, h']
  · subst h'; simp [lexLe, lt_irrefl]

theorem lexLe_cons_single_lt {a b : Char} (l : List Char) (h : a < b) :
    lexLe (a :: l) [b] = true := by
  simp [lexLe, h]

theorem base32Char_lt_base32Char :
    ∀ i < 32, ∀ j < 32, i < j → base32Char i < base32Char j := by decide

theorem base32Char_le_base32Char :
    ∀ i < 32, ∀ j < 32, i ≤ j → base32Char i ≤ base32Char j := by decide

theorem base32Char_base32Index : ∀ c ∈ base32List, base32Char (base32Index c) = c := by decide

theorem base32Index_lt_32 : ∀ c ∈ base32List, base32Index c < 32 := by decide

theorem base32_mem_bounds : ∀ c ∈ base32List, '0' ≤ c ∧ c < '~' := by decide

theorem nat_lt_div_mul_add {a n : ℕ} (hn : 0 < n) : a < a / n * n + n := by
  have h1 : a / n * n + a % n = a := Nat.div_add_mod' a n
  have h2 : a % n < n := Nat.mod_lt a hn
  omega

/-! ## Claim C9 -/

/-- Claim C9: for every valid geohash `g` and every bit count `b` whose
character precision `ceil(b/5)` does not exceed the length of `g`, the pair
`[start, end]` returned by `geohashQuery g b` satisfies `start ≤ g` and
`g ≤ end` in lexicographic string order, including the overflow case where
the end is `base ++ "~"`. -/
theorem geohashQuery_contains_geohash (g : List Char) (bits : ℕ)
    (hv : validGeohash g = true) (hp : (bits + 4) / 5 ≤ g.length) :
    lexLe (geohashQuery g bits).1 g = true ∧ lexLe g (geohashQuery g bits).2 = true := by
  have hnl : ¬ g.length < (bits + 4) / 5 := not_lt.mpr hp
  have hne : g ≠ [] := by
    intro h
    subst h
    simp [validGeohash] at hv
  have hall : ∀ c ∈ g, c ∈ base32List := by
    simp only [validGeohash, Bool.and_eq_true, List.all_eq_true, decide_eq_true_eq] at hv
    exact hv.2
  by_cases hzero : (bits + 4) / 5 = 0
  · -- precision 0: possible only for bits = 0; result is `(['0'], ['~'])`
    have hb : bits = 0 := by omega
    subst hb
    obtain ⟨c, rest, rfl⟩ : ∃ c rest, g = c :: rest := by
      cases g with
      | nil => exact absurd rfl hne
      | cons c rest => exact ⟨c, rest, rfl⟩
    have hc := base32_mem_bounds c (hall c (by simp))
    have hq : geohashQuery (c :: rest) 0 = (['0'], ['~']) := by
      simp [geohashQuery, base32Char, base32List]
    rw [hq]
    exact ⟨lexLe_single_cons rest hc.1, lexLe_cons_single_lt rest hc.2⟩
  · -- precision ≥ 1
    have hpos : 0 < (bits + 4) / 5 := Nat.pos_of_ne_zero hzero
    set precision := (bits + 4) / 5 with hprec
    have hghlen : (g.take precision).length = precision := by
      simp [List.length_take]
      omega
    have hghne : g.take precision ≠ [] := by
      intro h
      rw [h] at hghlen
      simp at hghlen
      omega
    set c := (g.take precision).getLast hghne with hc
    have hdecomp : (g.take precision).dropLast ++ [c] = g.take precision :=
      List.dropLast_append_getLast hghne
    have hgl : (g.take precision).getLast? = some c := List.getLast?_eq_getLast _ hghne
    have hcmem : c ∈ base32List := by
      refine hall c (List.take_subset precision g ?_)
      exact hdecomp ▸ List.mem_append_right _ (by simp)
    have hlv : base32Index c < 32 := base32Index_lt_32 c hcmem
    have hcc : base32Char (base32Index c) = c := base32Char_base32Index c hcmem
    -- abbreviations for the arithmetic of the last character
    set base := (g.take precision).dropLast with hbase
    set u := 5 - (bits - base.length * 5) with hu
    set startValue := base32Index c / 2 ^ u * 2 ^ u with hsv
    set endValue := startValue + 2 ^ u with hev
    have hstart_le : startValue ≤ base32Index c := Nat.div_mul_le_self _ _
    have hlt_end : base32Index c < endValue := nat_lt_div_mul_add (Nat.pos_pow_of_pos u (by norm_num))
    have hstart_lt : startValue < 32 := lt_of_le_of_lt hstart_le hlv
    have hsc : base32Char startValue ≤ c := by
      rw [← hcc]
      exact base32Char_le_base32Char startValue hstart_lt (base32Index c) hlv hstart_le
    -- the source computes exactly these components
    have hq : geohashQuery g bits =
        (if endValue > 31 then (base ++ [base32Char startValue], base ++ ['~'])
         else (base ++ [base32Char startValue], base ++ [base32Char endValue])) := by
      simp only [geohashQuery, ← hprec]
      rw [if_neg hnl, hgl]
    have hgsplit : g = base ++ (c :: (g.drop precision)) := by
      conv_lhs => rw [← List.take_append_drop precision g]
      rw [← hdecomp]
      simp
    by_cases hov : endValue > 31
    · rw [hq, if_pos hov]
      constructor
      · rw [hgsplit, lexLe_append_same]
        exact lexLe_single_cons _ hsc
      · conv_lhs => rw [hgsplit]
        rw [lexLe_append_same]
        exact lexLe_cons_single_lt _ (base32_mem_bounds c hcmem).2
    · rw [hq, if_neg hov]
      have hevlt : endValue < 32 := by omega
      have hlt : c < base32Char endValue := by
        rw [← hcc]
        exact base32Char_lt_base32Char (base32Index c) hlv endValue hevlt hlt_end
      constructor
      · rw [hgsplit, lexLe_append_same]
        exact lexLe_single_cons _ hsc
      · conv_lhs => rw [hgsplit]
        rw [lexLe_append_same]
        exact lexLe_cons_single_lt _ hlt

/-- Witness for C9 at the concrete geohash `ezs4` with 13 bits. -/
theorem geohashQuery_contains_geohash_witness :
    lexLe (geohashQuery ['e', 'z', 's', '4'] 13).1 ['e', 'z', 's', '4'] = true ∧
    lexLe ['e', 'z', 's', '4'] (geohashQuery ['e', 'z', 's', '4'] 13).2 = true :=
  geohashQuery_contains_geohash ['e', 'z', 's', '4'] 13 (by decide) (by decide)

/-! ## Claim C10 -/

/-- Claim C10 (code-bug exhibit): `GeoCallbackRegistration.cancel` normally
removes exactly the first occurrence of its callback and later calls are
no-ops, BUT when the callback is no longer in the list (reachable after
`query.cancel()` replaced the callback record and a different callback was
registered afterwards), `indexOf` returns `-1` and `splice(-1, 1)` removes
the LAST element — a different registration's callback — contradicting the
source's own documentation that cancelling "has no effect on any other
callback registrations". Here callback `3` was registered first, the list
was rebuilt, callback `7` was registered, and cancelling the stale
registration of `3` deletes `7`. -/
theorem registrationCancel_removes_other_callback :
    registrationCancel false [3, 7] 3 = (true, [7]) ∧
    registrationCancel false [7, 3, 3] 3 = (true, [7, 3]) ∧
    registrationCancel true [7] 3 = (true, [7]) ∧
    registrationCancel false [7] 3 = (true, []) := by decide

/-! ## Claim C3 -/

/-- Claim C3 (code-bug exhibit): `validateCriteria` explicitly accepts a
radius of `0` ("radius must be greater than or equal to 0"), but
`updateCriteria` assigns `this._radius = newQueryCriteria.radius ||
this._radius`, and `0` is falsy in JS: updating a radius-5 query with
`{radius: 0}` validates fine yet leaves the stored radius at `5`, so
`radius()` afterwards returns `5`, not `0`.  Positive radii and the
center-only update behave as the claim states. -/
theorem updateCriteria_radius_zero_ignored :
    validateCriteria { center := none, radius := some 0 } false = .ok () ∧
    radiusOfResult (updateCriteria radiusFiveState { center := none, radius := some 0 } []) =
      some 5 ∧
    radiusOfResult (updateCriteria radiusFiveState { center := none, radius := some 2 } []) =
      some 2 ∧
    radiusOfResult (updateCriteria radiusFiveState { center := some (1, 1), radius := none } []) =
      some 5 := by
  have h2 : ((2 : ℚ) : ℝ) = (2 : ℝ) := by norm_num
  have hn2 : ¬ ((2 : ℚ) < 0) := by norm_num
  have hn0 : ¬ ((0 : ℚ) < 0) := by norm_num
  have hlat1 : ¬ ((1 : ℚ) < -90) := by norm_num
  have hlat2 : ¬ ((1 : ℚ) > 90) := by norm_num
  have hlon1 : ¬ ((1 : ℚ) < -180) := by norm_num
  have hlon2 : ¬ ((1 : ℚ) > 180) := by norm_num
  refine ⟨rfl, ?_, ?_, ?_⟩ <;>
    simp [updateCriteria, radiusOfResult, validateCriteria, validateLocation, radiusFiveState,
      scenarioState, updateCriteriaLoop, listenForNewGeohashes, dedupFirst, dedupFirstAux,
      markQueries, geohashQueryReadyCallback, h2, hn2, hn0, hlat1, hlat2, hlon1, hlon2]

/-! ## Claim C5 -/

/-- Claim C5 counterexample: subscribe a query to thirty ranges, shrink its
coverage to five (which schedules the coalesced one-shot cleanup), then call
`cancel()`: the one-shot cleanup timeout is still pending after `cancel()`
returns, because `cancel()` only clears the interval
(`clearInterval(this._cleanUpCurrentGeohashesQueriedInterval)`) and never
touches `_cleanUpCurrentGeohashesQueriedTimeout`. -/
theorem cancel_leaves_oneshot_scheduled :
    (cancelQuery (listenForNewGeohashes thirtyRangeState fiveDesired).1).cleanupTimeoutPending
      = true := by
  decide

/-- Claim C5 amended: `cancel()` stops the fixed-period cleanup interval,
but it does not cancel a pending coalesced one-shot cleanup timeout: that
flag (and the `_geohashCleanupScheduled` flag) are left exactly as they
were. -/
theorem cancel_timer_behaviour (s : QueryState) :
    (cancelQuery s).cleanupIntervalActive = false ∧
    (cancelQuery s).cleanupTimeoutPending = s.cleanupTimeoutPending ∧
    (cancelQuery s).geohashCleanupScheduled = s.geohashCleanupScheduled :=
  ⟨rfl, rfl, rfl⟩

/-! ## Claim C8 -/

/-- Claim C8 counterexample: constructing a query with an invalid radius
(`-1`) throws, but the periodic cleanup interval was already scheduled
(query.js schedules it at line 38, before `validateCriteria` runs at line
44), so the failed construction leaves the interval timer scheduled. -/
theorem constructQuery_invalid_radius_leaves_interval :
    constructQuery { center := some (0, 0), radius := some (-1) } [] =
      ([Effect.scheduleInterval 10000],
       .error "radius must be greater than or equal to 0") := by
  rfl

/-- Claim C8 amended: with invalid criteria the constructor throws
synchronously before storing the criteria and before issuing any store
subscription — the only effect of a failed construction is the periodic
cleanup interval, which is scheduled before validation and left
scheduled. -/
theorem constructQuery_error_path (c : Criteria) (coverage : List String) (e : String)
    (h : validateCriteria c true = .error e) :
    constructQuery c coverage = ([Effect.scheduleInterval 10000], .error e) := by
  unfold constructQuery
  rw [h]

/-- Witness for the C8 amended theorem at criteria with a negative radius. -/
theorem constructQuery_error_path_witness :
    constructQuery { center := some (0, 0), radius := some (-1) } ["a:b"] =
      ([Effect.scheduleInterval 10000],
       .error "radius must be greater than or equal to 0") :=
  constructQuery_error_path _ _ _ (by rfl)

/-! ## Claim C6 -/

/-- Claim C6 (code-bug exhibit): subscribing 30 distinct ranges and then
shrinking the desired coverage to 5 of them does take the over-25 path:
the recomputation marks 25 ranges stale and schedules the coalesced
one-shot cleanup (`setTimeout(..., 10)`, with the scheduled flag set so
re-entrant scheduling is a no-op).  But query.js line 373 passes
`this._cleanUpCurrentGeohashesQueried` to `setTimeout` UNBOUND, so when
the timer fires, `this` is not the query and the callback throws a
TypeError (`fireOneShotCleanup`): no subscription is cancelled, all 30
remain queried, and — since the scheduled flag is only reset at the end of
the never-reached method body — the correctly-bound periodic interval is
blocked as well (`cleanupIntervalTick` sweeps nothing).  The intended,
correctly-bound invocation (what the code comment at lines 369-370
describes, modelled by `cleanUpCurrentGeohashesQueried`) would have left
exactly the 5 desired subscriptions and removed the 25 stale ones. -/
theorem oneshot_cleanup_unbound_this_throws :
    (listenForNewGeohashes thirtyRangeState fiveDesired).2.1 =
      [Effect.scheduleTimeout 10] ∧
    (listenForNewGeohashes thirtyRangeState fiveDesired).1.geohashCleanupScheduled = true ∧
    (listenForNewGeohashes thirtyRangeState fiveDesired).1.cleanupTimeoutPending = true ∧
    ((listenForNewGeohashes thirtyRangeState fiveDesired).1.currentGeohashesQueried).length =
      30 ∧
    fireOneShotCleanup (listenForNewGeohashes thirtyRangeState fiveDesired).1 =
      .error oneShotTypeError ∧
    (cleanupIntervalTick (listenForNewGeohashes thirtyRangeState fiveDesired).1).toOption.map
        (fun p => ((p.1.currentGeohashesQueried).length, p.2)) = some (30, []) ∧
    (cleanUpCurrentGeohashesQueried
        (listenForNewGeohashes thirtyRangeState fiveDesired).1).toOption.map
        (fun p => ((p.1.currentGeohashesQueried).length, p.2.length)) = some (5, 25) := by
  refine ⟨by decide, by decide, by decide, by decide, rfl, by decide, by decide⟩

/-! ## Claim C4 -/

/-- `_updateLocation` never touches the callback record, on either the
throwing or the normal path. -/
theorem updateLocation_preserves_callbacks (s : QueryState) (key : String)
    (loc : ℝ × ℝ) (doc : Option String) :
    callbacksAfterUpdate s key loc doc = s.callbacks := by
  simp only [callbacksAfterUpdate, updateLocation]
  by_cases h1 : loc.1 < -90 ∨ loc.1 > 90
  · rw [if_pos h1]
  · rw [if_neg h1]
    by_cases h2 : loc.2 < -180 ∨ loc.2 > 180
    · rw [if_pos h2]
    · rw [if_neg h2]

/-- Claim C4: after `cancel()`, all callback lists are empty, so no fired
event produces a callback invocation; the store-notification handlers
(`_updateLocation`, `_removeLocation`, `_geohashQueryReadyCallback`) never
re-register callbacks, so the lists stay empty under any further store
notification; and the per-key `updateCriteria` loop checks the cancelled
flag at the top of each iteration, so from a cancelled state it terminates
immediately, changing nothing and firing no events. -/
theorem cancel_silences_query :
    ∀ (s : QueryState) (e : FiredEvent) (key : String) (loc : ℝ × ℝ)
      (doc : Option String) (keys : List String),
      invocationsOf (cancelQuery s) e = [] ∧
      callbacksAfterUpdate (cancelQuery s) key loc doc = emptyCallbacks ∧
      ((removeLocation (cancelQuery s) key (some loc)).1).callbacks = emptyCallbacks ∧
      ((geohashQueryReadyCallback (cancelQuery s) none).1).callbacks = emptyCallbacks ∧
      (∀ s₂, s₂.cancelled = true → updateCriteriaLoop s₂ keys = (s₂, [])) := by
  intro s e key loc doc keys
  refine ⟨?_, ?_, ?_, ?_, ?_⟩
  · cases he : e.type <;>
      simp [invocationsOf, cancelQuery, emptyCallbacks, callbacksFor, he]
  · rw [updateLocation_preserves_callbacks]
    rfl
  · simp only [removeLocation, cancelQuery]
    split <;> first | rfl | split <;> rfl
  · rfl
  · intro s₂ h
    cases keys with
    | nil => rfl
    | cons k rest => simp [updateCriteriaLoop, h]

/-- Witness for C4: a concrete cancelled query ignores a concrete store
notification and a concrete mid-flight criteria loop. -/
theorem cancel_silences_query_witness :
    invocationsOf (cancelQuery scenarioState) ⟨.key_entered, "A", none, none, none⟩ = [] ∧
    updateCriteriaLoop { scenarioState with cancelled := true } ["A", "B"] =
      ({ scenarioState with cancelled := true }, []) :=
  ⟨(cancel_silences_query scenarioState ⟨.key_entered, "A", none, none, none⟩ "A" (0, 0)
      none ["A", "B"]).1,
   (cancel_silences_query scenarioState ⟨.key_entered, "A", none, none, none⟩ "A" (0, 0)
      none ["A", "B"]).2.2.2.2 { scenarioState with cancelled := true } rfl⟩

/-! ## Claim C7 -/

/-- Claim C7: during the geohash-cleanup sweep of the tracked locations,
keys whose geohash is still covered by a currently queried range are kept
untouched; if every no-longer-covered key has `isInQuery = false`, exactly
those keys are deleted; and if some no-longer-covered key is still flagged
in-query, the sweep throws the fatal internal-state error instead of
returning any state (the in-query key is never silently deleted). -/
theorem cleanUpLocations_spec :
    ∀ (ranges : List String) (tracked : List (String × LocationInfo)),
      ((∀ p ∈ tracked, geohashInSomeQuery p.2.geohash ranges = false →
          p.2.isInQuery = false) →
        cleanUpLocations ranges tracked =
          .ok (tracked.filter (fun p => geohashInSomeQuery p.2.geohash ranges))) ∧
      ((∃ p ∈ tracked, geohashInSomeQuery p.2.geohash ranges = false ∧
          p.2.isInQuery = true) →
        cleanUpLocations ranges tracked = .error internalStateError) := by
  intro ranges tracked
  induction tracked with
  | nil =>
    refine ⟨fun _ => rfl, ?_⟩
    rintro ⟨p, hp, -⟩
    simp at hp
  | cons hd tl ih =>
    obtain ⟨k, info⟩ := hd
    constructor
    · intro h
      by_cases hcov : geohashInSomeQuery info.geohash ranges = true
      · have htl := ih.1 (fun p hp => h p (List.mem_cons_of_mem _ hp))
        simp [cleanUpLocations, hcov, htl]
      · have hcov' : geohashInSomeQuery info.geohash ranges = false := by
          simpa using hcov
        have hnin : info.isInQuery = false := h (k, info) (by simp) hcov'
        have htl := ih.1 (fun p hp => h p (List.mem_cons_of_mem _ hp))
        simp [cleanUpLocations, hcov', hnin, htl]
    · rintro ⟨p, hp, hf, ht⟩
      rcases List.mem_cons.mp hp with rfl | hmem
      · have hf' : ¬ (geohashInSomeQuery info.geohash ranges = true) := by simpa using hf
        have ht' : info.isInQuery = true := by simpa using ht
        simp only [cleanUpLocations]
        rw [if_neg hf', if_pos ht']
      · have herr := ih.2 ⟨p, hmem, hf, ht⟩
        by_cases hcov : geohashInSomeQuery info.geohash ranges = true
        · simp [cleanUpLocations, hcov, herr]
        · have hcov' : geohashInSomeQuery info.geohash ranges = false := by
            simpa using hcov
          by_cases hin : info.isInQuery = true
          · simp [cleanUpLocations, hcov', hin]
          · have hin' : info.isInQuery = false := by simpa using hin
            simp [cleanUpLocations, hcov', hin', herr]

/-- Witness for C7: a covered key and an uncovered not-in-query key are
kept/deleted respectively; an uncovered in-query key aborts with the fatal
error. -/
theorem cleanUpLocations_spec_witness :
    cleanUpLocations ["a:z"]
        [("in", ⟨(0, 0), none, 0, true, "q"⟩), ("out", ⟨(0, 0), none, 0, false, "0"⟩)] =
      .ok ([("in", ⟨(0, 0), none, 0, true, "q"⟩),
            ("out", ⟨(0, 0), none, 0, false, "0"⟩)].filter
        (fun p => geohashInSomeQuery p.2.geohash ["a:z"])) ∧
    cleanUpLocations ["a:z"] [("bad", ⟨(0, 0), none, 0, true, "0"⟩)] =
      .error internalStateError :=
  ⟨(cleanUpLocations_spec ["a:z"]
      [("in", ⟨(0, 0), none, 0, true, "q"⟩), ("out", ⟨(0, 0), none, 0, false, "0"⟩)]).1
     (by decide),
   (cleanUpLocations_spec ["a:z"] [("bad", ⟨(0, 0), none, 0, true, "0"⟩)]).2
     ⟨("bad", ⟨(0, 0), none, 0, true, "0"⟩), by simp, by decide, rfl⟩⟩

/-! ## Claim C2 helper lemmas: bounds on the haversine distance -/

theorem arctan_le_self (x : ℝ) (hx : 0 ≤ x) : Real.arctan x ≤ x := by
  have h0 : 0 ≤ Real.arctan x := by
    have h := Real.arctan_strictMono.monotone hx
    rwa [Real.arctan_zero] at h
  have h := Real.le_tan h0 (Real.arctan_lt_pi_div_two x)
  rwa [Real.tan_arctan] at h

/-- For a tiny haversine `a`, the distance `6371 * (2 * atan2 √a √(1-a))`
stays far below 1000 kilometers. -/
theorem haversine_small (a : ℝ) (ha : a ≤ (1 / 3000) ^ 2) :
    6371 * (2 * atan2 (Real.sqrt a) (Real.sqrt (1 - a))) ≤ 1000 := by
  have hs1 : Real.sqrt a ≤ 1 / 3000 := by
    calc Real.sqrt a ≤ Real.sqrt ((1 / 3000) ^ 2) := Real.sqrt_le_sqrt ha
    _ = 1 / 3000 := Real.sqrt_sq (by norm_num)
  have hs2 : (7 / 10 : ℝ) ≤ Real.sqrt (1 - a) := by
    rw [Real.le_sqrt' (by norm_num)]
    nlinarith
  have hpos : 0 < Real.sqrt (1 - a) := lt_of_lt_of_le (by norm_num) hs2
  rw [atan2, if_pos hpos]
  have hxnn : 0 ≤ Real.sqrt a / Real.sqrt (1 - a) :=
    div_nonneg (Real.sqrt_nonneg a) (Real.sqrt_nonneg _)
  have hxle : Real.sqrt a / Real.sqrt (1 - a) ≤ 1 / 2100 := by
    calc Real.sqrt a / Real.sqrt (1 - a) ≤ (1 / 3000) / (7 / 10) :=
      div_le_div₀ (by norm_num) hs1 (by norm_num) hs2
    _ ≤ 1 / 2100 := by norm_num
  have harc := arctan_le_self _ hxnn
  linarith

/-- Exact value of the scenario's first distance: 555.97 meters, i.e.
`6371 * 0.005 * π / 180` kilometers. -/
theorem distance_first_point :
    distance ((0 : ℝ), (0.005 : ℝ)) ((0 : ℝ), (0 : ℝ)) =
      6371 * (0.005 * Real.pi / 180) := by
  have hπ := Real.pi_pos
  simp only [distance, degreesToRadians]
  rw [show ((0 : ℝ) - 0) * Real.pi / 180 / 2 = 0 by ring]
  rw [show ((0 : ℝ)) * Real.pi / 180 = 0 by ring]
  rw [show ((0 : ℝ) - 0.005) * Real.pi / 180 / 2 = -(0.005 * Real.pi / 360) by ring]
  rw [Real.sin_zero, Real.cos_zero, Real.sin_neg]
  have hθpos : 0 < 0.005 * Real.pi / 360 := by positivity
  have hθlt : 0.005 * Real.pi / 360 < Real.pi / 2 := by nlinarith
  have hsin_nn : 0 ≤ Real.sin (0.005 * Real.pi / 360) :=
    Real.sin_nonneg_of_nonneg_of_le_pi hθpos.le (by nlinarith)
  have hcos_pos : 0 < Real.cos (0.005 * Real.pi / 360) :=
    Real.cos_pos_of_mem_Ioo ⟨by nlinarith, hθlt⟩
  rw [show (0 : ℝ) * 0 + 1 * 1 *
        (-Real.sin (0.005 * Real.pi / 360) * -Real.sin (0.005 * Real.pi / 360)) =
      Real.sin (0.005 * Real.pi / 360) * Real.sin (0.005 * Real.pi / 360) by ring]
  rw [Real.sqrt_mul_self hsin_nn]
  rw [show 1 - Real.sin (0.005 * Real.pi / 360) * Real.sin (0.005 * Real.pi / 360) =
        Real.cos (0.005 * Real.pi / 360) * Real.cos (0.005 * Real.pi / 360) by
    nlinarith [Real.sin_sq_add_cos_sq (0.005 * Real.pi / 360)]]
  rw [Real.sqrt_mul_self hcos_pos.le]
  rw [atan2, if_pos hcos_pos]
  rw [← Real.tan_eq_sin_div_cos]
  rw [Real.arctan_tan (by linarith) hθlt]
  ring

/-- The scenario's first distance is about 0.556 kilometers — inside the
stored radius of 1000. -/
theorem distance_first_bounds :
    0.55 < distance ((0 : ℝ), (0.005 : ℝ)) ((0 : ℝ), (0 : ℝ)) ∧
    distance ((0 : ℝ), (0.005 : ℝ)) ((0 : ℝ), (0 : ℝ)) < 0.56 := by
  rw [distance_first_point]
  constructor
  · nlinarith [Real.pi_gt_d6]
  · nlinarith [Real.pi_lt_d6]

/-- The scenario's second distance (about 3.14 kilometers) is also well
inside the stored radius of 1000, since the source stores the radius in
kilometers. -/
theorem distance_second_le :
    distance ((0.02 : ℝ), (0.02 : ℝ)) ((0 : ℝ), (0 : ℝ)) ≤ 1000 := by
  have hπ := Real.pi_pos
  have hπ3 := Real.pi_gt_three
  have hπ315 := Real.pi_lt_d2
  simp only [distance, degreesToRadians]
  rw [show ((0 : ℝ) - 0.02) * Real.pi / 180 / 2 = -(0.02 * Real.pi / 360) by ring]
  rw [show ((0.02 : ℝ)) * Real.pi / 180 = 0.02 * Real.pi / 180 by ring]
  rw [show ((0 : ℝ)) * Real.pi / 180 = 0 by ring]
  rw [Real.sin_neg, Real.cos_zero]
  have hηpos : 0 < 0.02 * Real.pi / 360 := by positivity
  have hηlt : 0.02 * Real.pi / 360 < 0.000175 := by nlinarith
  have hsin_nn : 0 ≤ Real.sin (0.02 * Real.pi / 360) :=
    Real.sin_nonneg_of_nonneg_of_le_pi hηpos.le (by nlinarith)
  have hsin_le : Real.sin (0.02 * Real.pi / 360) ≤ 0.02 * Real.pi / 360 :=
    (Real.sin_lt hηpos).le
  have hcos_nn : 0 ≤ Real.cos (0.02 * Real.pi / 180) := by
    refine Real.cos_nonneg_of_mem_Icc ⟨by nlinarith, by nlinarith⟩
  have hcos_le : Real.cos (0.02 * Real.pi / 180) ≤ 1 := Real.cos_le_one _
  rw [show -Real.sin (0.02 * Real.pi / 360) * -Real.sin (0.02 * Real.pi / 360) =
      Real.sin (0.02 * Real.pi / 360) * Real.sin (0.02 * Real.pi / 360) by ring]
  refine haversine_small _ ?_
  nlinarith [mul_self_nonneg (Real.sin (0.02 * Real.pi / 360))]

/-- First scenario step: key `A` first observed at `(0, 0.005)` fires
exactly one `key_entered` with that location and its distance. -/
theorem scenario_step1 :
    updateLocation scenarioState "A" ((0 : ℝ), (0.005 : ℝ)) (some "doc") =
      .ok ({ scenarioState with locationsTracked :=
               [("A", { location := (0, 0.005), document := some "doc",
                        distanceFromCenter := distance ((0 : ℝ), (0.005 : ℝ)) ((0 : ℝ), (0 : ℝ)),
                        isInQuery := true,
                        geohash := String.mk (encodeGeohash ((0 : ℝ), (0.005 : ℝ)) 10) })] },
           [{ type := .key_entered, key := "A", location := some (0, 0.005),
              distanceFromCenter := some (distance ((0 : ℝ), (0.005 : ℝ)) ((0 : ℝ), (0 : ℝ))),
              document := some "doc" }]) := by
  have hd1 : distance ((0 : ℝ), (0.005 : ℝ)) ((0 : ℝ), (0 : ℝ)) ≤ 1000 := by
    linarith [distance_first_bounds.2]
  have hdec : decide (distance ((0 : ℝ), (0.005 : ℝ)) ((0 : ℝ), (0 : ℝ)) ≤ (1000 : ℝ)) = true :=
    decide_eq_true hd1
  simp only [updateLocation, scenarioState]
  rw [if_neg (by norm_num), if_neg (by norm_num)]
  simp only [assocGet, assocSet, hdec, mkFiredEvent, Option.isSome, Bool.not_false,
    Bool.and_true, Bool.true_and, if_true, List.nil_append]
  simp

/-- Second scenario step: updating `A` to `(0.02, 0.02)` fires exactly one
`key_moved` (the point, about 3.14 km out, is still inside the 1000 km
radius). -/
theorem scenario_step2 :
    updateLocation
        ({ scenarioState with locationsTracked :=
             [("A", { location := (0, 0.005), document := some "doc",
                      distanceFromCenter := distance ((0 : ℝ), (0.005 : ℝ)) ((0 : ℝ), (0 : ℝ)),
                      isInQuery := true,
                      geohash := String.mk (encodeGeohash ((0 : ℝ), (0.005 : ℝ)) 10) })] })
        "A" ((0.02 : ℝ), (0.02 : ℝ)) (some "doc") =
      .ok ({ scenarioState with locationsTracked :=
               [("A", { location := (0.02, 0.02), document := some "doc",
                        distanceFromCenter := distance ((0.02 : ℝ), (0.02 : ℝ)) ((0 : ℝ), (0 : ℝ)),
                        isInQuery := true,
                        geohash := String.mk (encodeGeohash ((0.02 : ℝ), (0.02 : ℝ)) 10) })] },
           [{ type := .key_moved, key := "A", location := some (0.02, 0.02),
              distanceFromCenter := some (distance ((0.02 : ℝ), (0.02 : ℝ)) ((0 : ℝ), (0 : ℝ))),
              document := some "doc" }]) := by
  have hdec2 : decide (distance ((0.02 : ℝ), (0.02 : ℝ)) ((0 : ℝ), (0 : ℝ)) ≤ (1000 : ℝ)) =
      true := decide_eq_true distance_second_le
  have hne1 : decide ((0.02 : ℝ) = 0) = false := decide_eq_false (by norm_num)
  simp only [updateLocation, scenarioState]
  rw [if_neg (by norm_num), if_neg (by norm_num)]
  simp only [assocGet, assocSet, hdec2, hne1, mkFiredEvent, Option.isSome, Bool.not_true,
    Bool.not_false, Bool.and_false, Bool.false_and, Bool.and_true, Bool.true_and,
    Bool.true_or, Bool.or_true, if_true, if_false, List.nil_append]
  simp

/-! ## Claim C2 -/

/-- Claim C2 counterexample: in the concrete scenario (center `(0,0)`,
stored radius `1000`), the first observation of `A` at `(0, 0.005)` fires
exactly one `key_entered` — but the update to `(0.02, 0.02)` fires exactly
one `key_moved` and hence ZERO `key_exited` events, because the source
interprets the stored radius in KILOMETERS (query.js multiplies it by 1000
before handing it to the meter-based coverage computation, and `radius()`
is documented in kilometers): the point about 3.14 km away is still inside
a 1000 km circle, contradicting the claimed `key_exited`. -/
theorem scenario_no_key_exited :
    (eventsOfResult (updateLocation scenarioState "A" ((0 : ℝ), (0.005 : ℝ))
        (some "doc"))).map FiredEvent.type = [EventType.key_entered] ∧
    (eventsOfResult (updateLocation
        (stateOfResult (updateLocation scenarioState "A" ((0 : ℝ), (0.005 : ℝ))
          (some "doc")) scenarioState)
        "A" ((0.02 : ℝ), (0.02 : ℝ)) (some "doc"))).map FiredEvent.type =
      [EventType.key_moved] := by
  rw [scenario_step1]
  simp only [stateOfResult, eventsOfResult]
  rw [scenario_step2]
  simp [eventsOfResult]

/-- Claim C2 amended: with the stored radius of `1000` denoting kilometers,
the first observation of `A` at `(0, 0.005)` fires exactly one
`key_entered("A", (0, 0.005), d₁, doc)` with `d₁ ≈ 0.556` (the claimed
"about 0.555"), and the update to `(0.02, 0.02)` — about 3.14 km from the
center, still far inside the 1000 km circle — fires exactly one
`key_moved("A", (0.02, 0.02), d₂, doc)` and no `key_exited`. -/
theorem scenario_events_amended :
    eventsOfResult (updateLocation scenarioState "A" ((0 : ℝ), (0.005 : ℝ)) (some "doc")) =
      [{ type := .key_entered, key := "A", location := some (0, 0.005),
         distanceFromCenter := some (distance ((0 : ℝ), (0.005 : ℝ)) ((0 : ℝ), (0 : ℝ))),
         document := some "doc" }] ∧
    0.55 < distance ((0 : ℝ), (0.005 : ℝ)) ((0 : ℝ), (0 : ℝ)) ∧
    distance ((0 : ℝ), (0.005 : ℝ)) ((0 : ℝ), (0 : ℝ)) < 0.56 ∧
    eventsOfResult (updateLocation
        (stateOfResult (updateLocation scenarioState "A" ((0 : ℝ), (0.005 : ℝ))
          (some "doc")) scenarioState)
        "A" ((0.02 : ℝ), (0.02 : ℝ)) (some "doc")) =
      [{ type := .key_moved, key := "A", location := some (0.02, 0.02),
         distanceFromCenter := some (distance ((0.02 : ℝ), (0.02 : ℝ)) ((0 : ℝ), (0 : ℝ))),
         document := some "doc" }] ∧
    distance ((0.02 : ℝ), (0.02 : ℝ)) ((0 : ℝ), (0 : ℝ)) ≤ 1000 := by
  refine ⟨?_, distance_first_bounds.1, distance_first_bounds.2, ?_, distance_second_le⟩
  · rw [scenario_step1]
    rfl
  · rw [scenario_step1]
    simp only [stateOfResult]
    rw [scenario_step2]
    rfl

end Geofirestore
